import Mathlib

/-!
Verification of `src/xpublish/image_router.py` (repository `restful-grids`).

The file shallowly embeds the two FastAPI request handlers `get_image`
(lines 50-93) and `get_image_tile` (lines 95-132) together with the request
binding / validation layer (`ImageQuery`, `image_query`, lines 30-48).
External geospatial libraries (pyproj, cf_xarray, rioxarray, xesmf,
matplotlib, PIL) are black boxes per the repository spec: their data
transformations are abstracted into a `GeoLibs` record of arbitrary total
functions, while the structural contracts the handler code itself relies on
(output shape of `rio.reproject`, `np.linspace` spacing, `PIL` array-to-image
orientation, CPython `float()` parsing, elementwise arithmetic) are embedded
concretely from the libraries' documented behaviour, since those are the
parts the claims are about.

Machine floats are modelled by exact rationals plus explicit `inf`/`nan`
constructors where parsing needs them.
-/

namespace RestfulGrids

/-! ### Python `float` values and CPython string-to-float parsing

`get_image` line 52 runs `[float(x) for x in query.bbox.split(',')]`.
CPython's `float(str)` strips surrounding whitespace, takes an optional
sign, and then accepts either `inf`/`infinity`/`nan` (case-insensitive) or a
decimal literal `digits [. digits] | . digits` with an optional
`e`/`E`-exponent, where each digit group may contain single underscores
between digits. Anything else raises `ValueError`. -/

/-- A CPython float value: finite values are modelled exactly as rationals;
the special values `inf`, `-inf` and `nan` are explicit constructors. -/
inductive PyFloat where
  | finite (q : ℚ)
  | inf
  | neginf
  | nan
deriving DecidableEq, Repr

/-- Whitespace characters stripped by CPython's `float(str)`. -/
def isPySpace (c : Char) : Bool :=
  c = ' ' || c = '\t' || c = '\n' || c = '\r' || c = '\x0b' || c = '\x0c'

/-- Consume an optional leading sign; `true` means negative. -/
def parseSign : List Char → Bool × List Char
  | '+' :: r => (false, r)
  | '-' :: r => (true, r)
  | l => (false, l)

/-- Greedily consume a digit group in CPython literal syntax: digits with
single underscores allowed between digits.  Accumulates the value and the
number of digits consumed; returns the unconsumed suffix (starting at the
first character that cannot extend the group). -/
def digitsCore : List Char → Nat → Nat → Nat × Nat × List Char
  | [], acc, cnt => (acc, cnt, [])
  | c :: cs, acc, cnt =>
    if c.isDigit then
      digitsCore cs (10 * acc + (c.toNat - 48)) (cnt + 1)
    else if c = '_' then
      match cs with
      | d :: cs' =>
        if d.isDigit then digitsCore cs' (10 * acc + (d.toNat - 48)) (cnt + 1)
        else (acc, cnt, c :: d :: cs')
      | [] => (acc, cnt, [c])
    else (acc, cnt, c :: cs)

/-- Parse a digit group that must start with a digit; `none` otherwise. -/
def parseDigits (l : List Char) : Option (Nat × Nat × List Char) :=
  match l with
  | c :: _ => if c.isDigit then some (digitsCore l 0 0) else none
  | [] => none

/-- Parse the mantissa `digits [. [digits]] | . digits` of a CPython float
literal, returning its exact rational value and the unconsumed suffix. -/
def parseMantissa (l : List Char) : Option (ℚ × List Char) :=
  match parseDigits l with
  | some (n, _, rest) =>
    match rest with
    | '.' :: rest2 =>
      match parseDigits rest2 with
      | some (f, fc, rest3) => some ((n : ℚ) + (f : ℚ) / (10 : ℚ) ^ fc, rest3)
      | none => some ((n : ℚ), rest2)
    | _ => some ((n : ℚ), rest)
  | none =>
    match l with
    | '.' :: rest2 =>
      match parseDigits rest2 with
      | some (f, fc, rest3) => some ((f : ℚ) / (10 : ℚ) ^ fc, rest3)
      | none => none
    | _ => none

/-- Parse an optional `e`/`E` exponent; when the marker is absent the
exponent is `0` and nothing is consumed. -/
def parseExponent (l : List Char) : Option (Int × List Char) :=
  match l with
  | c :: rest =>
    if c = 'e' ∨ c = 'E' then
      let (esign, rest2) := parseSign rest
      match parseDigits rest2 with
      | some (e, _, rest3) => some ((if esign then -(e : Int) else (e : Int)), rest3)
      | none => none
    else some (0, c :: rest)
  | [] => some (0, [])

/-- Python `str.split` with a one-character separator (as in
`query.bbox.split(',')`, line 52), on character lists: splits at every
occurrence, keeping empty pieces, so `"".split(',') == ['']`. -/
def splitOnChar (sep : Char) : List Char → List (List Char)
  | [] => [[]]
  | c :: cs =>
    let r := splitOnChar sep cs
    if c = sep then [] :: r
    else
      match r with
      | h :: t => (c :: h) :: t
      | [] => [[c]]

/-- Python `s.split(',')` on strings. -/
def pySplitComma (s : String) : List String :=
  (splitOnChar ',' s.toList).map (fun l => ⟨l⟩)

/-- CPython `float(str)`: `some v` when the string is accepted, `none` when
`float()` would raise `ValueError`. -/
def pyFloatOfString? (s : String) : Option PyFloat :=
  let l := ((s.toList.dropWhile isPySpace).reverse.dropWhile isPySpace).reverse
  let (neg, l) := parseSign l
  let lower := l.map Char.toLower
  if lower = "inf".toList ∨ lower = "infinity".toList then
    some (if neg then PyFloat.neginf else PyFloat.inf)
  else if lower = "nan".toList then
    some PyFloat.nan
  else
    match parseMantissa l with
    | some (m, rest) =>
      match parseExponent rest with
      | some (e, []) =>
        some (PyFloat.finite ((if neg then -m else m) * (10 : ℚ) ^ e))
      | _ => none
    | none => none

/-! ### Elementwise numpy/xarray arithmetic used by the handlers -/

/-- Minimum of a list of values (`resampled_data.min()`, line 77); the value
on the empty list is irrelevant junk. -/
def listMin : List ℚ → ℚ
  | [] => 0
  | x :: xs => xs.foldl min x

/-- Maximum of a list of values (`resampled_data.max()`, line 79). -/
def listMax : List ℚ → ℚ
  | [] => 0
  | x :: xs => xs.foldl max x

/-- Models `np.linspace(start, stop, num)` (lines 105-106): `num` evenly spaced
samples from `start` to `stop`, endpoints included. -/
def npLinspace (start stop : ℚ) (num : Int) : List ℚ :=
  if num ≤ 0 then []
  else if num = 1 then [start]
  else (List.range num.toNat).map
    (fun i : Nat => start + (i : ℚ) * (stop - start) / ((num : ℚ) - 1))

/-- Models `np.uint8` applied to a float (lines 87 and 126): C-style conversion,
truncation toward zero followed by wraparound modulo 256. -/
def npUint8 (x : ℚ) : Nat := ((x.num / (x.den : Int)) % 256).toNat

/-! ### Data model

The dataset, data arrays, rasters and images that flow through the
handlers.  Only the structure the handler code itself inspects or
constructs is concrete; the gridded payload of a dataset is opaque (an
identifying tag), since every operation on it is an external library
call. -/

/-- An `xarray.Dataset` as the handlers see it: an opaque payload plus the
`rio.crs` metadata the code reads and writes (lines 64-65, 97-98). -/
structure Dataset where
  tag : Nat
  crs : Option String
deriving DecidableEq, Repr

/-- Models `ds[name]` variable selection (lines 69, 110): a data array is the
dataset it was selected from together with the variable name. -/
structure DataArray where
  src : Dataset
  name : String
deriving DecidableEq, Repr

/-- A 2-d gridded array of values with raster metadata, as produced by
`rio.reproject` / xesmf regridding.  `rows`/`cols` are Python ints. -/
structure Raster where
  rows : Int
  cols : Int
  values : List ℚ
  crs : Option String
  spatialDims : Option (String × String)
deriving DecidableEq, Repr

/-- Models `mercantile.bounds(x, y, z)` result: the tile's geographic bbox
`(west, south, east, north)` in degrees. -/
structure TileBounds where
  west : ℚ
  south : ℚ
  east : ℚ
  north : ℚ
deriving DecidableEq, Repr

/-- The target grid `ds_out` built at lines 104-107: a lat coordinate list
and a lon coordinate list. -/
structure TileGrid where
  lat : List ℚ
  lon : List ℚ
deriving DecidableEq, Repr

/-- An RGBA colour with float channels in `[0,1]`, as returned by a
matplotlib colormap for one scalar. -/
structure Rgba where
  r : ℚ
  g : ℚ
  b : ℚ
  a : ℚ
deriving DecidableEq, Repr

/-- An RGBA colour with `uint8` channels. -/
structure Rgba8 where
  r : Nat
  g : Nat
  b : Nat
  a : Nat
deriving DecidableEq, Repr

/-- The `uint8` RGBA array `np.uint8(cmap(ds_scaled)*255)` (lines 87, 126),
still in array (row-major) orientation. -/
structure ColorArray where
  rows : Int
  cols : Int
  pix : List Rgba8
deriving DecidableEq, Repr

/-- A PIL image.  `PIL.Image.fromarray` of an array with `rows` rows and
`cols` columns yields an image of size `(width, height) = (cols, rows)`. -/
structure PILImage where
  width : Int
  height : Int
  pixels : List Rgba8
deriving DecidableEq, Repr

/-- A FastAPI `Response` (lines 93, 132): body bytes plus media type. -/
structure Response where
  content : List Nat
  mediaType : String
deriving DecidableEq, Repr

/-- Errors the embedded code can raise: `ValueError` from `float()` or
tuple unpacking (line 52), a missing required query parameter rejected by
FastAPI, and a pydantic validation error from `ImageQuery(...)`. -/
inductive Err where
  | valueError
  | missingParam
  | validationError
deriving DecidableEq, Repr

/-- Models `rasterio.enums.Resampling` (only `bilinear` is used, line 72). -/
inductive Resampling where
  | nearest
  | bilinear
  | cubic
deriving DecidableEq, Repr

/-- The external geospatial libraries as black boxes: arbitrary total
functions, one per library call the handlers make. -/
structure GeoLibs where
  /-- Models `pyproj.Transformer.from_crs(crs, "EPSG:4326").transform(x, y)`
  (lines 55-57); the destination CRS is fixed to `"EPSG:4326"` by the
  code, so only the source CRS is a parameter. -/
  transform : String → PyFloat → PyFloat → PyFloat × PyFloat
  /-- Models `dataset.cf.sel({X: slice(x0,x1), Y: slice(y0,y1), T: t})`
  (line 61). -/
  cfSelXYT : Dataset → PyFloat × PyFloat → PyFloat × PyFloat → String → Dataset
  /-- Models `dataset.cf.sel({T: t})` (line 99). -/
  cfSelT : Dataset → String → Dataset
  /-- Models `.squeeze()` (lines 61, 99). -/
  squeeze : Dataset → Dataset
  /-- The cell values produced by
  `da.rio.reproject(dst_crs, shape, resampling)` (lines 69-73); the output
  *shape* is fixed by rioxarray's documented contract and is embedded
  concretely in `rioReproject` below, only the resampled values are
  opaque. -/
  reprojectValues : DataArray → String → Int × Int → Resampling → List ℚ
  /-- Models `mercantile.bounds(x, y, z)` (line 100). -/
  mercBounds : Int → Int → Int → TileBounds
  /-- Models `xe.Regridder(q, ds_out, "bilinear")` applied to `q[parameter]`
  (lines 109-110). -/
  regrid : Dataset → TileGrid → String → DataArray → Raster
  /-- Models `resampled_data.rio.reproject("EPSG:3857")` (line 112): no target
  shape is given, so the result is fully opaque. -/
  reproject3857 : Raster → Raster
  /-- Models `cm.get_cmap(name)` applied to one scalar (lines 87, 126). -/
  getCmap : String → ℚ → Rgba
  /-- Models `PIL` PNG encoding: `im.save(buf, format='PNG')` (lines 89-91,
  128-130). -/
  pngEncode : PILImage → List Nat

/-- Builds `"EPSG:" ++ code`, the CRS written by `rio.write_crs(4326)`. -/
def epsgString (code : Nat) : String := "EPSG:" ++ toString code

/-- Models `ds.rio.write_crs(code)` (lines 65, 98): `inplace` defaults to `False`
in rioxarray, so this returns a new dataset and leaves its argument
untouched. -/
def dsWriteCrs (ds : Dataset) (code : Nat) : Dataset :=
  { ds with crs := some (epsgString code) }

/-- Models `raster.rio.write_crs(code)` (line 111), again a non-inplace copy. -/
def rasterWriteCrs (r : Raster) (code : Nat) : Raster :=
  { r with crs := some (epsgString code) }

/-- Models `raster.rio.set_spatial_dims(x_dim, y_dim)` (line 111). -/
def rasterSetSpatialDims (r : Raster) (xdim ydim : String) : Raster :=
  { r with spatialDims := some (xdim, ydim) }

/-- Models `ds[name]` (lines 69, 110). -/
def dsGetVar (ds : Dataset) (name : String) : DataArray := ⟨ds, name⟩

/-- Models `da.rio.reproject(dst_crs, shape=shape, resampling=rs)` (lines 69-73).
Per rioxarray's documentation the `shape` argument is
`(dst_height, dst_width)`, i.e. `(rows, cols)` of the output raster; the
resampled cell values are delegated to the external library. -/
def rioReproject (libs : GeoLibs) (da : DataArray) (dstCrs : String)
    (shape : Int × Int) (rs : Resampling) : Raster :=
  { rows := shape.1
    cols := shape.2
    values := libs.reprojectValues da dstCrs shape rs
    crs := some dstCrs
    spatialDims := none }

/-- Elementwise arithmetic on a raster (xarray broadcasting): dims and
metadata are preserved, each cell value is mapped. -/
def rasterMap (f : ℚ → ℚ) (r : Raster) : Raster :=
  { r with values := r.values.map f }

/-- Models `np.uint8(rgba * 255)` for one pixel (lines 87, 126). -/
def rgbaToUint8 (c : Rgba) : Rgba8 :=
  ⟨npUint8 (c.r * 255), npUint8 (c.g * 255), npUint8 (c.b * 255), npUint8 (c.a * 255)⟩

/-- Models `np.uint8(cm.get_cmap(name)(scaled) * 255)` (lines 87, 126): apply the
colormap to every cell, scale to `uint8`. -/
def colorizeRaster (libs : GeoLibs) (name : String) (r : Raster) : ColorArray :=
  { rows := r.rows, cols := r.cols, pix := r.values.map (fun v => rgbaToUint8 (libs.getCmap name v)) }

/-- Models `Image.fromarray(arr)` (lines 87, 126): a `rows × cols` RGBA array
becomes an image of width `cols` and height `rows`. -/
def pilFromArray (ca : ColorArray) : PILImage :=
  { width := ca.cols, height := ca.rows, pixels := ca.pix }

/-! ### Request binding and validation (lines 30-48, 96)

`ImageQuery` is a pydantic model whose first six fields are declared with
`Field(...)` (required) and whose `cmap` is `Optional[str] = None`.  The
FastAPI dependency `image_query` (lines 40-48) declares `bbox`, `width`,
`height`, `parameter` and `datetime` without defaults — FastAPI rejects a
request missing one of them before calling it — while `crs` and `cmap`
default to `None`; it then constructs `ImageQuery`, whose validation
rejects `crs=None` because the `crs` field is a required `str`. -/

/-- The validated query object of the bbox endpoint (lines 30-37). -/
structure ImageQuery where
  bbox : String
  width : Int
  height : Int
  parameter : String
  datetime : String
  crs : String
  cmap : Option String
deriving DecidableEq, Repr

/-- The raw query parameters of a request to `/`, before FastAPI binding:
`none` means the parameter was not supplied. -/
structure RawImageParams where
  bbox : Option String
  width : Option Int
  height : Option Int
  parameter : Option String
  datetime : Option String
  crs : Option String
  cmap : Option String
deriving DecidableEq, Repr

/-- The dependency `image_query` (lines 40-48): receives `crs` (possibly
`None`, its declared default) and `cmap`, and builds the pydantic model.
Pydantic rejects `None` for the required `str` field `crs`. -/
def image_query (bbox : String) (width height : Int) (parameter datetime : String)
    (crs : Option String) (cmap : Option String) : Except Err ImageQuery :=
  match crs with
  | none => .error .validationError
  | some c => .ok ⟨bbox, width, height, parameter, datetime, c, cmap⟩

/-- FastAPI's binding of the raw query string to `image_query`'s
parameters: the five parameters without defaults are required (a request
omitting one is rejected with 422 before the dependency runs), `crs` and
`cmap` fall back to their `None` defaults. -/
def fastapiBindImageQuery (p : RawImageParams) : Except Err ImageQuery :=
  match p.bbox, p.width, p.height, p.parameter, p.datetime with
  | some b, some w, some h, some par, some dt => image_query b w h par dt p.crs p.cmap
  | _, _, _, _, _ => .error .missingParam

/-- The bound parameters of the tile endpoint (line 96). -/
structure TileRequest where
  parameter : String
  t : String
  z : Int
  x : Int
  y : Int
  size : Int
deriving DecidableEq, Repr

/-- FastAPI's binding for `get_image_tile` (line 96): `parameter`, `t`,
`z`, `x`, `y` are path parameters (always present on a routed request);
`size` is a query parameter with default `256`. -/
def bindTileRequest (parameter t : String) (z x y : Int) (size : Option Int) : TileRequest :=
  ⟨parameter, t, z, x, y, size.getD 256⟩

/-! ### The bbox handler `get_image` (lines 50-93), split at the claim
boundaries into its pipeline stages. -/

/-- Line 52: `xmin, ymin, xmax, ymax = [float(x) for x in query.bbox.split(',')]`.
`float()` raises `ValueError` on an unparseable piece, and unpacking
raises `ValueError` unless there are exactly four pieces. -/
def parseBbox (bbox : String) : Except Err (PyFloat × PyFloat × PyFloat × PyFloat) :=
  match (pySplitComma bbox).mapM pyFloatOfString? with
  | none => .error .valueError
  | some [a, b, c, d] => .ok (a, b, c, d)
  | some _ => .error .valueError

/-- Lines 54-60: transform the bbox corners to `EPSG:4326` unless the
request CRS already is `EPSG:4326`. -/
def transformBboxStep (libs : GeoLibs) (crs : String) (xmin ymin xmax ymax : PyFloat) :
    (PyFloat × PyFloat) × (PyFloat × PyFloat) :=
  if crs ≠ "EPSG:4326" then
    (libs.transform crs xmin ymin, libs.transform crs xmax ymax)
  else
    ((xmin, ymin), (xmax, ymax))

/-- Lines 61-73 given the parsed corners: slice the dataset by X/Y/T and
squeeze (line 61), write `EPSG:4326` when the slice has no CRS
(lines 64-65), then reproject the requested variable to the request CRS
with `shape=(query.width, query.height)` and bilinear resampling
(lines 69-73). -/
def get_image_core_resampled (libs : GeoLibs) (query : ImageQuery) (dataset : Dataset)
    (xmin ymin xmax ymax : PyFloat) : Raster :=
  let mm := transformBboxStep libs query.crs xmin ymin xmax ymax
  let q := libs.squeeze (libs.cfSelXYT dataset (mm.1.1, mm.2.1) (mm.1.2, mm.2.2) query.datetime)
  let q := if q.crs = none then dsWriteCrs q 4326 else q
  rioReproject libs (dsGetVar q query.parameter) query.crs (query.width, query.height) .bilinear

/-- The resampled raster of `get_image` (lines 52-73), or the parse
error. -/
def get_image_resampled (libs : GeoLibs) (query : ImageQuery) (dataset : Dataset) :
    Except Err Raster :=
  match parseBbox query.bbox with
  | .error e => .error e
  | .ok (xmin, ymin, xmax, ymax) =>
    .ok (get_image_core_resampled libs query dataset xmin ymin xmax ymax)

/-- Lines 77-81 on the value list: autoscaling normalization
`(v - min) / (max - min)` with `min`/`max` taken from the data itself. -/
def autoscale (data : List ℚ) : List ℚ :=
  data.map (fun v => (v - listMin data) / (listMax data - listMin data))

/-- The divisor `max_value - min_value` of the unguarded division at
line 81. -/
def normDivisor (data : List ℚ) : ℚ := listMax data - listMin data

/-- Lines 77-81 on the raster: elementwise, dims preserved. -/
def autoscaleRaster (r : Raster) : Raster :=
  { r with values := autoscale r.values }

/-- The scaled raster `ds_scaled` of `get_image` (lines 52-81). -/
def get_image_scaled (libs : GeoLibs) (query : ImageQuery) (dataset : Dataset) :
    Except Err Raster :=
  (get_image_resampled libs query dataset).map autoscaleRaster

/-- Lines 85-86: `if not query.cmap: query.cmap = 'rainbow'`.  Python
falsiness makes both a missing and an empty `cmap` fall back to
`'rainbow'`. -/
def usedCmap (query : ImageQuery) : String :=
  match query.cmap with
  | none => "rainbow"
  | some s => if s = "" then "rainbow" else s

/-- The PIL image `im` of `get_image` (lines 52-87). -/
def get_image_image (libs : GeoLibs) (query : ImageQuery) (dataset : Dataset) :
    Except Err PILImage :=
  (get_image_scaled libs query dataset).map
    (fun r => pilFromArray (colorizeRaster libs (usedCmap query) r))

/-- The handler `get_image` (lines 50-93): encode the image as PNG and
respond with media type `image/png`. -/
def get_image (libs : GeoLibs) (query : ImageQuery) (dataset : Dataset) :
    Except Err Response :=
  (get_image_image libs query dataset).map
    (fun im => { content := libs.pngEncode im, mediaType := "image/png" })

/-! ### The tile handler `get_image_tile` (lines 95-132) -/

/-- Fixed normalization lower bound of the tile endpoint (line 116). -/
def tileMinValue : ℚ := 0

/-- Fixed normalization upper bound of the tile endpoint (line 118). -/
def tileMaxValue : ℚ := 5

/-- Line 120 on one value: `(v - min_value) / (max_value - min_value)`
with the fixed bounds. -/
def tileScale (v : ℚ) : ℚ := (v - tileMinValue) / (tileMaxValue - tileMinValue)

/-- Lines 104-107: the target grid `ds_out` for the tile, `size` samples
from south to north and from west to east. -/
def tileDsOut (bbox : TileBounds) (size : Int) : TileGrid :=
  { lat := npLinspace bbox.south bbox.north size
    lon := npLinspace bbox.west bbox.east size }

/-- The grid `ds_out` built by `get_image_tile` from the tile's
`mercantile.bounds` (lines 100-107). -/
def get_image_tile_dsOut (libs : GeoLibs) (r : TileRequest) : TileGrid :=
  tileDsOut (libs.mercBounds r.x r.y r.z) r.size

/-- Lines 97-112: write `EPSG:4326` on the injected dataset when it has
no CRS (lines 97-98), select the time and squeeze (line 99), regrid the
requested variable onto the tile grid (lines 104-110), tag the result
with CRS and spatial dims (line 111) and reproject it to `EPSG:3857`
(line 112). -/
def get_image_tile_resampled (libs : GeoLibs) (r : TileRequest) (dataset : Dataset) :
    Raster :=
  let dataset := if dataset.crs = none then dsWriteCrs dataset 4326 else dataset
  let q := libs.squeeze (libs.cfSelT dataset r.t)
  let resampled := libs.regrid q (get_image_tile_dsOut libs r) "bilinear" (dsGetVar q r.parameter)
  let resampled := rasterSetSpatialDims (rasterWriteCrs resampled 4326) "lon" "lat"
  libs.reproject3857 resampled

/-- The scaled raster `ds_scaled` of the tile handler (lines 114-120). -/
def get_image_tile_scaled (libs : GeoLibs) (r : TileRequest) (dataset : Dataset) : Raster :=
  rasterMap tileScale (get_image_tile_resampled libs r dataset)

/-- The handler `get_image_tile` (lines 95-132): colorize with the literal
`'rainbow'` colormap (line 126), PNG-encode and respond. -/
def get_image_tile (libs : GeoLibs) (r : TileRequest) (dataset : Dataset) :
    Except Err Response :=
  .ok
    { content :=
        libs.pngEncode
          (pilFromArray (colorizeRaster libs "rainbow" (get_image_tile_scaled libs r dataset)))
      mediaType := "image/png" }

/-! ### The router (lines 27, 50, 95) and per-request dispatch -/

/-- One route registration on the `APIRouter`. -/
structure RouteSpec where
  method : String
  path : String
deriving DecidableEq, Repr

/-- Embeds `image_router`: the routes registered by the two `@image_router.get`
decorators (lines 50 and 95).  `APIRouter.get` registers the HTTP GET
method. -/
def image_router : List RouteSpec :=
  [⟨"GET", "/"⟩, ⟨"GET", "/tile/{parameter}/{t}/{z}/{x}/{y}"⟩]

/-- A request to one of the two endpoints, already bound to its handler's
parameters. -/
inductive ApiRequest where
  | image (q : ImageQuery)
  | tile (r : TileRequest)
deriving DecidableEq, Repr

/-- Dispatch a bound request to its handler. -/
def handleRequest (libs : GeoLibs) (req : ApiRequest) (dataset : Dataset) :
    Except Err Response :=
  match req with
  | .image q => get_image libs q dataset
  | .tile r => get_image_tile libs r dataset

/-! ### Module state threading

The handlers receive the dataset from `Depends(get_dataset)` per request.
Every dataset operation the handlers perform (`cf.sel`, `squeeze`,
`rio.write_crs` with its default `inplace=False`, `rio.reproject`,
variable selection) returns a new object, and the handlers only rebind
local names; the module itself holds no mutable state besides the router
registrations and the logger.  Threading an explicit module state through
a handler call makes that observable. -/

/-- The state surrounding a request: the dataset object the dependency
injection supplies. -/
structure ModuleState where
  injected : Dataset
deriving DecidableEq, Repr

/-- Runs `get_image` as a state transformer on the module state. -/
def handle_get_image (libs : GeoLibs) (q : ImageQuery) (st : ModuleState) :
    Except Err Response × ModuleState :=
  (get_image libs q st.injected, st)

/-- Runs `get_image_tile` as a state transformer on the module state. -/
def handle_get_image_tile (libs : GeoLibs) (r : TileRequest) (st : ModuleState) :
    Except Err Response × ModuleState :=
  (get_image_tile libs r st.injected, st)

/-! ### Execution traces

To reason about the order of the pipeline stages, each handler is paired
with a trace-producing variant built from the same stages, emitting one
label per stage of the spec's pipeline taxonomy. -/

/-- The pipeline stage labels of the spec. -/
inductive Step where
  | parse
  | transformBbox
  | sliceDataset
  | resample
  | normalize
  | colorize
  | encode
  | respond
deriving DecidableEq, Repr

/-- The step order the spec claims for both handlers. -/
def claimedStepOrder : List Step :=
  [.parse, .transformBbox, .sliceDataset, .resample, .normalize, .colorize, .encode, .respond]

/-- Runs `get_image` with its execution trace: parsing (line 52) fails before
any later stage runs; on success the stages run in source order —
transform bbox (54-60), slice (61), resample (69-73), normalize (77-81),
colorize (85-87), encode (89-91), respond (93). -/
def get_image_trace (libs : GeoLibs) (query : ImageQuery) (dataset : Dataset) :
    List Step × Except Err Response :=
  match parseBbox query.bbox with
  | .error e => ([.parse], .error e)
  | .ok (xmin, ymin, xmax, ymax) =>
    let resampled := get_image_core_resampled libs query dataset xmin ymin xmax ymax
    let scaled := autoscaleRaster resampled
    let im := pilFromArray (colorizeRaster libs (usedCmap query) scaled)
    let bytes := libs.pngEncode im
    ([.parse, .transformBbox, .sliceDataset, .resample, .normalize, .colorize, .encode, .respond],
     .ok { content := bytes, mediaType := "image/png" })

/-- Runs `get_image_tile` with its execution trace.  In source order the
handler binds its path parameters, selects the time slice (line 99),
*then* derives the tile's bounding box (line 100), regrids/reprojects
(104-112), normalizes (114-120), colorizes (126), encodes (128-130) and
responds (132): the slice precedes the bounding-box derivation. -/
def get_image_tile_trace (libs : GeoLibs) (r : TileRequest) (dataset : Dataset) :
    List Step × Except Err Response :=
  let dataset := if dataset.crs = none then dsWriteCrs dataset 4326 else dataset
  let q := libs.squeeze (libs.cfSelT dataset r.t)
  let resampled := libs.regrid q (get_image_tile_dsOut libs r) "bilinear" (dsGetVar q r.parameter)
  let resampled := rasterSetSpatialDims (rasterWriteCrs resampled 4326) "lon" "lat"
  let resampled := libs.reproject3857 resampled
  let scaled := rasterMap tileScale resampled
  let bytes := libs.pngEncode (pilFromArray (colorizeRaster libs "rainbow" scaled))
  ([.parse, .sliceDataset, .transformBbox, .resample, .normalize, .colorize, .encode, .respond],
   .ok { content := bytes, mediaType := "image/png" })

/-! ### Claim-side predicates

These two definitions follow the words of the claims being checked, not
the source; they exist to be compared with the source-derived behaviour. -/

/-- Follows the claim's words for C9 ("four comma-separated decimal
numbers"): a decimal number is an optional sign followed by digits with at
most one decimal point and at least one digit. -/
def specDecimalNumber (s : String) : Bool :=
  let l := (parseSign s.toList).2
  l ≠ [] && l.all (fun c => c.isDigit || c = '.') && l.any Char.isDigit && l.count '.' ≤ 1

/-- Follows the claim's words for C9: a bbox string consisting of exactly
four comma-separated decimal numbers. -/
def specFourDecimalNumbers (s : String) : Bool :=
  (pySplitComma s).length = 4 && (pySplitComma s).all specDecimalNumber

/-- The source-side condition the bbox parse actually accepts: exactly
four comma-separated pieces, each accepted by CPython `float()`. -/
def pyFourFloats (s : String) : Bool :=
  match (pySplitComma s).mapM pyFloatOfString? with
  | some l => l.length = 4
  | none => false

/-! ### Concrete instances for witnesses -/

/-- A concrete dataset for witness evaluation. -/
def exampleDataset : Dataset := ⟨0, some "EPSG:4326"⟩

/-- A concrete, fully computable instantiation of the external libraries,
used only to evaluate the handlers at witness inputs. -/
def exampleLibs : GeoLibs :=
  { transform := fun _ x y => (x, y)
    cfSelXYT := fun ds _ _ _ => ds
    cfSelT := fun ds _ => ds
    squeeze := fun ds => ds
    reprojectValues := fun _ _ _ _ => [0, 2]
    mercBounds := fun _ _ _ => ⟨-180, -85, 180, 85⟩
    regrid := fun _ _ _ _ => ⟨2, 2, [0, 2], none, none⟩
    reproject3857 := fun r => r
    getCmap := fun _ v => ⟨v, v, v, 1⟩
    pngEncode := fun im => [im.width.toNat, im.height.toNat] }

/-- A concrete valid query to the bbox endpoint. -/
def exampleQuery : ImageQuery :=
  ⟨"0,0,1,1", 2, 2, "sst", "2022-05-05", "EPSG:4326", none⟩

/-- A concrete tile request. -/
def exampleTile : TileRequest := ⟨"sst", "2022-05-05", 1, 0, 0, 4⟩

/-! ### Helper lemmas: folded minima and maxima of value lists -/

theorem foldl_min_le_init (xs : List ℚ) (a : ℚ) : xs.foldl min a ≤ a := by
  induction xs generalizing a with
  | nil => exact le_refl a
  | cons x xs ih =>
    exact le_trans (ih (min a x)) (min_le_left a x)

theorem foldl_min_le_mem {x : ℚ} (xs : List ℚ) (a : ℚ) (h : x ∈ xs) :
    xs.foldl min a ≤ x := by
  induction xs generalizing a with
  | nil => cases h
  | cons y ys ih =>
    rcases List.mem_cons.mp h with rfl | hy
    · exact le_trans (foldl_min_le_init ys (min a x)) (min_le_right a x)
    · exact ih (min a y) hy

theorem foldl_min_mem (xs : List ℚ) (a : ℚ) :
    xs.foldl min a = a ∨ xs.foldl min a ∈ xs := by
  induction xs generalizing a with
  | nil => exact Or.inl rfl
  | cons y ys ih =>
    rcases ih (min a y) with h | h
    · rcases min_choice a y with hm | hm
      · exact Or.inl (by rw [List.foldl_cons, h, hm])
      · exact Or.inr (by rw [List.foldl_cons, h, hm]; exact List.mem_cons_self y ys)
    · exact Or.inr (List.mem_cons_of_mem y h)

theorem init_le_foldl_max (xs : List ℚ) (a : ℚ) : a ≤ xs.foldl max a := by
  induction xs generalizing a with
  | nil => exact le_refl a
  | cons x xs ih =>
    exact le_trans (le_max_left a x) (ih (max a x))

theorem mem_le_foldl_max {x : ℚ} (xs : List ℚ) (a : ℚ) (h : x ∈ xs) :
    x ≤ xs.foldl max a := by
  induction xs generalizing a with
  | nil => cases h
  | cons y ys ih =>
    rcases List.mem_cons.mp h with rfl | hy
    · exact le_trans (le_max_right a x) (init_le_foldl_max ys (max a x))
    · exact ih (max a y) hy

theorem foldl_max_mem (xs : List ℚ) (a : ℚ) :
    xs.foldl max a = a ∨ xs.foldl max a ∈ xs := by
  induction xs generalizing a with
  | nil => exact Or.inl rfl
  | cons y ys ih =>
    rcases ih (max a y) with h | h
    · rcases max_choice a y with hm | hm
      · exact Or.inl (by rw [List.foldl_cons, h, hm])
      · exact Or.inr (by rw [List.foldl_cons, h, hm]; exact List.mem_cons_self y ys)
    · exact Or.inr (List.mem_cons_of_mem y h)

theorem listMin_le {x : ℚ} {l : List ℚ} (h : x ∈ l) : listMin l ≤ x := by
  cases l with
  | nil => cases h
  | cons a xs =>
    rcases List.mem_cons.mp h with rfl | hx
    · exact foldl_min_le_init xs x
    · exact foldl_min_le_mem xs a hx

theorem le_listMax {x : ℚ} {l : List ℚ} (h : x ∈ l) : x ≤ listMax l := by
  cases l with
  | nil => cases h
  | cons a xs =>
    rcases List.mem_cons.mp h with rfl | hx
    · exact init_le_foldl_max xs x
    · exact mem_le_foldl_max xs a hx

theorem listMin_mem {l : List ℚ} (h : l ≠ []) : listMin l ∈ l := by
  cases l with
  | nil => exact absurd rfl h
  | cons a xs =>
    rcases foldl_min_mem xs a with hm | hm
    · rw [listMin, hm]; exact List.mem_cons_self a xs
    · exact List.mem_cons_of_mem a hm

theorem listMax_mem {l : List ℚ} (h : l ≠ []) : listMax l ∈ l := by
  cases l with
  | nil => exact absurd rfl h
  | cons a xs =>
    rcases foldl_max_mem xs a with hm | hm
    · rw [listMax, hm]; exact List.mem_cons_self a xs
    · exact List.mem_cons_of_mem a hm

/-- Two distinct members force a strictly positive spread. -/
theorem listMin_lt_listMax {l : List ℚ} {a b : ℚ}
    (ha : a ∈ l) (hb : b ∈ l) (hab : a ≠ b) : listMin l < listMax l := by
  rcases lt_or_le (listMin l) (listMax l) with h | h
  · exact h
  · exfalso
    apply hab
    have h1 : a ≤ listMin l := le_trans (le_listMax ha) h
    have h2 : b ≤ listMin l := le_trans (le_listMax hb) h
    have h3 : listMin l ≤ a := listMin_le ha
    have h4 : listMin l ≤ b := listMin_le hb
    exact le_antisymm (le_trans h1 h4) (le_trans h2 h3)

/-! ### Helper lemmas: `np.linspace` -/

theorem npLinspace_eq_map (start stop : ℚ) (num : Int) (h : 2 ≤ num) :
    npLinspace start stop num
      = (List.range num.toNat).map
          (fun i : Nat => start + (i : ℚ) * (stop - start) / ((num : ℚ) - 1)) := by
  rw [npLinspace, if_neg (by omega), if_neg (by omega)]

theorem npLinspace_length (start stop : ℚ) (num : Int) (h : 2 ≤ num) :
    (npLinspace start stop num).length = num.toNat := by
  rw [npLinspace_eq_map start stop num h]
  simp

theorem npLinspace_head? (start stop : ℚ) (num : Int) (h : 2 ≤ num) :
    (npLinspace start stop num).head? = some start := by
  rw [npLinspace_eq_map start stop num h, List.head?_map]
  have hn : 0 < num.toNat := by omega
  obtain ⟨m, hm⟩ : ∃ m, num.toNat = m + 1 := ⟨num.toNat - 1, by omega⟩
  rw [hm, List.range_succ_eq_map]
  simp

theorem intCast_toNat (num : Int) (h : 0 ≤ num) : ((num.toNat : ℚ)) = (num : ℚ) := by
  exact_mod_cast congrArg (fun z : Int => (z : ℚ)) (Int.toNat_of_nonneg h)

theorem npLinspace_getLast? (start stop : ℚ) (num : Int) (h : 2 ≤ num) :
    (npLinspace start stop num).getLast? = some stop := by
  rw [npLinspace_eq_map start stop num h, List.getLast?_eq_getElem?]
  have hlen : ((List.range num.toNat).map
      (fun i : Nat => start + (i : ℚ) * (stop - start) / ((num : ℚ) - 1))).length
        = num.toNat := by
    simp
  have hn : 1 ≤ num.toNat := by omega
  have hidx : num.toNat - 1 < num.toNat := by omega
  rw [hlen, List.getElem?_map]
  rw [List.getElem?_range hidx]
  have hcast : (((num.toNat - 1 : Nat)) : ℚ) = (num : ℚ) - 1 := by
    push_cast [Nat.cast_sub hn]
    rw [intCast_toNat num (by omega)]
  have hd : ((num : ℚ) - 1) ≠ 0 := by
    have h2q : (2 : ℚ) ≤ (num : ℚ) := by exact_mod_cast h
    intro hc
    rw [sub_eq_zero] at hc
    rw [hc] at h2q
    norm_num at h2q
  rw [Option.map_some']
  congr 1
  rw [hcast, mul_comm ((num : ℚ) - 1) (stop - start), mul_div_assoc,
    div_self hd, mul_one]
  ring

theorem npLinspace_step (start stop : ℚ) (num : Int) (h : 2 ≤ num)
    (i : Nat) (hi : i + 1 < (npLinspace start stop num).length) :
    (npLinspace start stop num).get ⟨i + 1, hi⟩
      - (npLinspace start stop num).get ⟨i, Nat.lt_of_succ_lt hi⟩
      = (stop - start) / ((num : ℚ) - 1) := by
  have he := npLinspace_eq_map start stop num h
  have hlen : (npLinspace start stop num).length = num.toNat := npLinspace_length start stop num h
  have hi1 : i + 1 < num.toNat := by omega
  have hi0 : i < num.toNat := by omega
  have e1 : (npLinspace start stop num).get ⟨i + 1, hi⟩
      = start + ((i + 1 : Nat) : ℚ) * (stop - start) / ((num : ℚ) - 1) := by
    rw [List.get_eq_getElem]
    simp only [he]
    rw [List.getElem_map, List.getElem_range]
  have e0 : (npLinspace start stop num).get ⟨i, Nat.lt_of_succ_lt hi⟩
      = start + ((i : Nat) : ℚ) * (stop - start) / ((num : ℚ) - 1) := by
    rw [List.get_eq_getElem]
    simp only [he]
    rw [List.getElem_map, List.getElem_range]
  rw [e1, e0]
  push_cast
  ring

/-! ### Statement of claim C7 -/

/-- The property claim C7 asserts of the tile handler's output grid
`ds_out`, for a given libraries instance and tile request: the bbox is
derived from `z/x/y` via `mercantile.bounds`, and each coordinate axis is
`size` evenly spaced values running between the corresponding tile
bounds. -/
def C7Statement (libs : GeoLibs) (r : TileRequest) : Prop :=
  (get_image_tile_dsOut libs r).lat
      = npLinspace (libs.mercBounds r.x r.y r.z).south (libs.mercBounds r.x r.y r.z).north r.size
  ∧ (get_image_tile_dsOut libs r).lon
      = npLinspace (libs.mercBounds r.x r.y r.z).west (libs.mercBounds r.x r.y r.z).east r.size
  ∧ (get_image_tile_dsOut libs r).lat.length = r.size.toNat
  ∧ (get_image_tile_dsOut libs r).lon.length = r.size.toNat
  ∧ (get_image_tile_dsOut libs r).lat.head? = some (libs.mercBounds r.x r.y r.z).south
  ∧ (get_image_tile_dsOut libs r).lat.getLast? = some (libs.mercBounds r.x r.y r.z).north
  ∧ (get_image_tile_dsOut libs r).lon.head? = some (libs.mercBounds r.x r.y r.z).west
  ∧ (get_image_tile_dsOut libs r).lon.getLast? = some (libs.mercBounds r.x r.y r.z).east
  ∧ (∀ (i : Nat) (hi : i + 1 < (get_image_tile_dsOut libs r).lat.length),
      (get_image_tile_dsOut libs r).lat.get ⟨i + 1, hi⟩
        - (get_image_tile_dsOut libs r).lat.get ⟨i, Nat.lt_of_succ_lt hi⟩
        = ((libs.mercBounds r.x r.y r.z).north - (libs.mercBounds r.x r.y r.z).south)
            / ((r.size : ℚ) - 1))
  ∧ (∀ (i : Nat) (hi : i + 1 < (get_image_tile_dsOut libs r).lon.length),
      (get_image_tile_dsOut libs r).lon.get ⟨i + 1, hi⟩
        - (get_image_tile_dsOut libs r).lon.get ⟨i, Nat.lt_of_succ_lt hi⟩
        = ((libs.mercBounds r.x r.y r.z).east - (libs.mercBounds r.x r.y r.z).west)
            / ((r.size : ℚ) - 1))
  ∧ (∀ (p t : String) (z x y : Int), (bindTileRequest p t z x y none).size = 256)

/-! ## Claim theorems -/

/-- C1: the router registers exactly two endpoints, both HTTP GET, and
every response either handler returns carries the PNG encoding of the
rendered image as its body and `image/png` as its media type. -/
theorem C1_two_get_endpoints_png :
    image_router.length = 2
    ∧ (∀ r ∈ image_router, r.method = "GET")
    ∧ (∀ (libs : GeoLibs) (req : ApiRequest) (ds : Dataset) (resp : Response),
        handleRequest libs req ds = .ok resp →
        resp.mediaType = "image/png" ∧ ∃ im, resp.content = libs.pngEncode im) := by
  refine ⟨rfl, by decide, ?_⟩
  intro libs req ds resp h
  cases req with
  | image q =>
    simp only [handleRequest, get_image] at h
    cases him : get_image_image libs q ds with
    | error e => rw [him] at h; cases h
    | ok im =>
      rw [him] at h
      simp only [Except.map] at h
      injection h with h
      rw [← h]
      exact ⟨rfl, im, rfl⟩
  | tile r =>
    simp only [handleRequest, get_image_tile] at h
    injection h with h
    rw [← h]
    exact ⟨rfl, _, rfl⟩

/-- C1 witness: a concrete request whose response is PNG-typed. -/
theorem C1_two_get_endpoints_png_witness :
    Response.mediaType ⟨[2, 2], "image/png"⟩ = "image/png"
    ∧ ∃ im, Response.content ⟨[2, 2], "image/png"⟩ = exampleLibs.pngEncode im :=
  C1_two_get_endpoints_png.2.2 exampleLibs (.image exampleQuery) exampleDataset
    ⟨[2, 2], "image/png"⟩ rfl

/-- C4: a request to `/` supplying bbox, width, height, parameter,
datetime and crs is accepted by request construction (with or without the
optional cmap), and a request omitting any of those six is rejected before
the handler body runs. -/
theorem C4_required_params :
    (∀ (b : String) (w h : Int) (par dt c : String) (cm : Option String),
        fastapiBindImageQuery ⟨some b, some w, some h, some par, some dt, some c, cm⟩
          = .ok ⟨b, w, h, par, dt, c, cm⟩)
    ∧ (∀ p : RawImageParams,
        (p.bbox = none ∨ p.width = none ∨ p.height = none ∨ p.parameter = none
          ∨ p.datetime = none ∨ p.crs = none) →
        ∃ e, fastapiBindImageQuery p = .error e) := by
  constructor
  · intro b w h par dt c cm
    rfl
  · intro p hp
    obtain ⟨b, w, h, par, dt, crs, cm⟩ := p
    rcases b with _ | b <;> rcases w with _ | w <;> rcases h with _ | h <;>
      rcases par with _ | par <;> rcases dt with _ | dt <;> rcases crs with _ | crs <;>
      first
        | exact ⟨Err.missingParam, rfl⟩
        | exact ⟨Err.validationError, rfl⟩
        | (exfalso
           rcases hp with h1 | h1 | h1 | h1 | h1 | h1 <;> simp at h1)

/-- C4 witness: a complete request is accepted; one missing `bbox` is
rejected. -/
theorem C4_required_params_witness :
    fastapiBindImageQuery ⟨some "0,0,1,1", some 2, some 2, some "sst",
        some "2022-05-05", some "EPSG:4326", none⟩
      = .ok ⟨"0,0,1,1", 2, 2, "sst", "2022-05-05", "EPSG:4326", none⟩
    ∧ ∃ e, fastapiBindImageQuery
        ⟨none, some 2, some 2, some "sst", some "2022-05-05", some "EPSG:4326", none⟩
        = .error e :=
  ⟨C4_required_params.1 "0,0,1,1" 2 2 "sst" "2022-05-05" "EPSG:4326" none,
   C4_required_params.2
     ⟨none, some 2, some 2, some "sst", some "2022-05-05", some "EPSG:4326", none⟩
     (Or.inl rfl)⟩

/-- C6: neither handler changes the injected dataset or any surrounding
module state — threading the module state through a handler call returns
it unchanged — and the response depends only on the request and the
injected dataset, so nothing survives from one request to the next. -/
theorem C6_no_dataset_mutation :
    ∀ (libs : GeoLibs) (q : ImageQuery) (r : TileRequest) (st st' : ModuleState),
      (handle_get_image libs q st).2 = st
      ∧ (handle_get_image_tile libs r st).2 = st
      ∧ (st.injected = st'.injected →
          (handle_get_image libs q st).1 = (handle_get_image libs q st').1)
      ∧ (st.injected = st'.injected →
          (handle_get_image_tile libs r st).1 = (handle_get_image_tile libs r st').1) := by
  intro libs q r st st'
  refine ⟨rfl, rfl, ?_, ?_⟩ <;> intro hinj <;>
    simp [handle_get_image, handle_get_image_tile, hinj]

/-- C6 witness at a concrete request and state. -/
theorem C6_no_dataset_mutation_witness :
    (handle_get_image exampleLibs exampleQuery ⟨exampleDataset⟩).2 = ⟨exampleDataset⟩
    ∧ (handle_get_image_tile exampleLibs exampleTile ⟨exampleDataset⟩).2 = ⟨exampleDataset⟩
    ∧ (handle_get_image exampleLibs exampleQuery ⟨exampleDataset⟩).1
        = (handle_get_image exampleLibs exampleQuery ⟨exampleDataset⟩).1
    ∧ (handle_get_image_tile exampleLibs exampleTile ⟨exampleDataset⟩).1
        = (handle_get_image_tile exampleLibs exampleTile ⟨exampleDataset⟩).1 :=
  ⟨(C6_no_dataset_mutation exampleLibs exampleQuery exampleTile ⟨exampleDataset⟩ ⟨exampleDataset⟩).1,
   (C6_no_dataset_mutation exampleLibs exampleQuery exampleTile ⟨exampleDataset⟩ ⟨exampleDataset⟩).2.1,
   (C6_no_dataset_mutation exampleLibs exampleQuery exampleTile ⟨exampleDataset⟩ ⟨exampleDataset⟩).2.2.1 rfl,
   (C6_no_dataset_mutation exampleLibs exampleQuery exampleTile ⟨exampleDataset⟩ ⟨exampleDataset⟩).2.2.2 rfl⟩

/-- C10: the autoscaling divisor `max_value - min_value` of the bbox
endpoint is nonzero whenever the resampled data has two distinct values,
and it is zero exactly when the resampled data is constant. -/
theorem C10_divisor_zero_iff_constant (data : List ℚ) (hne : data ≠ []) :
    ((∃ a ∈ data, ∃ b ∈ data, a ≠ b) → normDivisor data ≠ 0)
    ∧ (normDivisor data = 0 ↔ ∀ a ∈ data, ∀ b ∈ data, a = b) := by
  have key : ∀ a ∈ data, ∀ b ∈ data, a ≠ b → normDivisor data ≠ 0 := by
    intro a ha b hb hab
    exact ne_of_gt (sub_pos.mpr (listMin_lt_listMax ha hb hab))
  constructor
  · rintro ⟨a, ha, b, hb, hab⟩
    exact key a ha b hb hab
  · constructor
    · intro h0 a ha b hb
      by_contra hab
      exact key a ha b hb hab h0
    · intro hconst
      have hmax : listMax data ∈ data := listMax_mem hne
      have hmin : listMin data ∈ data := listMin_mem hne
      have hmm : listMax data = listMin data := hconst _ hmax _ hmin
      rw [normDivisor, hmm, sub_self]

/-- C10 witness: non-constant data has a nonzero divisor. -/
theorem C10_divisor_zero_iff_constant_witness :
    normDivisor [(3 : ℚ), 7] ≠ 0 :=
  (C10_divisor_zero_iff_constant [(3 : ℚ), 7] (by decide)).1
    ⟨3, by decide, 7, by decide, by decide⟩

/-- C5: on a non-constant resampled raster, the bbox endpoint's normalize
step maps each value `v` to `(v - min) / (max - min)`; every normalized
value lies in `[0, 1]`, the data minimum maps to `0` and the data maximum
maps to `1`. -/
theorem C5_autoscale_normalizes (libs : GeoLibs) (q : ImageQuery) (ds : Dataset)
    (raster : Raster)
    (hres : get_image_resampled libs q ds = .ok raster)
    (hnc : ∃ a ∈ raster.values, ∃ b ∈ raster.values, a ≠ b) :
    get_image_scaled libs q ds = .ok (autoscaleRaster raster)
    ∧ (autoscaleRaster raster).values
        = raster.values.map
            (fun v => (v - listMin raster.values)
              / (listMax raster.values - listMin raster.values))
    ∧ (∀ w ∈ (autoscaleRaster raster).values, 0 ≤ w ∧ w ≤ 1)
    ∧ (0 : ℚ) ∈ (autoscaleRaster raster).values
    ∧ (1 : ℚ) ∈ (autoscaleRaster raster).values := by
  obtain ⟨a, ha, b, hb, hab⟩ := hnc
  have hlt : listMin raster.values < listMax raster.values := listMin_lt_listMax ha hb hab
  have hpos : (0 : ℚ) < listMax raster.values - listMin raster.values := sub_pos.mpr hlt
  have hne : raster.values ≠ [] := by
    intro hnil
    rw [hnil] at ha
    cases ha
  refine ⟨by rw [get_image_scaled, hres]; rfl, rfl, ?_, ?_, ?_⟩
  · intro w hw
    have hw' : w ∈ raster.values.map
        (fun v => (v - listMin raster.values)
          / (listMax raster.values - listMin raster.values)) := hw
    obtain ⟨v, hv, rfl⟩ := List.mem_map.mp hw'
    constructor
    · exact div_nonneg (sub_nonneg.mpr (listMin_le hv)) (le_of_lt hpos)
    · rw [div_le_one hpos]
      exact sub_le_sub_right (le_listMax hv) _
  · show (0 : ℚ) ∈ raster.values.map
      (fun v => (v - listMin raster.values)
        / (listMax raster.values - listMin raster.values))
    exact List.mem_map.mpr ⟨listMin raster.values, listMin_mem hne, by rw [sub_self, zero_div]⟩
  · show (1 : ℚ) ∈ raster.values.map
      (fun v => (v - listMin raster.values)
        / (listMax raster.values - listMin raster.values))
    exact List.mem_map.mpr ⟨listMax raster.values, listMax_mem hne, div_self (ne_of_gt hpos)⟩

/-- The concrete resampled raster produced at the witness inputs. -/
def exampleResampled : Raster := ⟨2, 2, [0, 2], some "EPSG:4326", none⟩

/-- C5 witness: a concrete non-constant request. -/
theorem C5_autoscale_normalizes_witness :
    get_image_scaled exampleLibs exampleQuery exampleDataset = .ok (autoscaleRaster exampleResampled)
    ∧ (autoscaleRaster exampleResampled).values
        = exampleResampled.values.map
            (fun v => (v - listMin exampleResampled.values)
              / (listMax exampleResampled.values - listMin exampleResampled.values))
    ∧ (∀ w ∈ (autoscaleRaster exampleResampled).values, 0 ≤ w ∧ w ≤ 1)
    ∧ (0 : ℚ) ∈ (autoscaleRaster exampleResampled).values
    ∧ (1 : ℚ) ∈ (autoscaleRaster exampleResampled).values :=
  C5_autoscale_normalizes exampleLibs exampleQuery exampleDataset exampleResampled rfl
    ⟨0, by decide, 2, by decide, by decide⟩

/-- C7: the tile handler derives the tile bbox from `z/x/y` via
`mercantile.bounds` and builds `ds_out` as a size-by-size grid of evenly
spaced latitudes from south to north and longitudes from west to east,
the `size` parameter defaulting to `256`. -/
theorem C7_tile_grid (libs : GeoLibs) (r : TileRequest) (h2 : 2 ≤ r.size) :
    C7Statement libs r := by
  have hlat : (get_image_tile_dsOut libs r).lat
      = npLinspace (libs.mercBounds r.x r.y r.z).south (libs.mercBounds r.x r.y r.z).north r.size := rfl
  have hlon : (get_image_tile_dsOut libs r).lon
      = npLinspace (libs.mercBounds r.x r.y r.z).west (libs.mercBounds r.x r.y r.z).east r.size := rfl
  refine ⟨hlat, hlon, ?_, ?_, ?_, ?_, ?_, ?_, ?_, ?_, ?_⟩
  · rw [hlat, npLinspace_length _ _ _ h2]
  · rw [hlon, npLinspace_length _ _ _ h2]
  · rw [hlat, npLinspace_head? _ _ _ h2]
  · rw [hlat, npLinspace_getLast? _ _ _ h2]
  · rw [hlon, npLinspace_head? _ _ _ h2]
  · rw [hlon, npLinspace_getLast? _ _ _ h2]
  · intro i hi
    exact npLinspace_step _ _ _ h2 i hi
  · intro i hi
    exact npLinspace_step _ _ _ h2 i hi
  · intro p t z x y
    rfl

/-- C7 witness: a concrete tile request with `size = 4`. -/
theorem C7_tile_grid_witness :
    2 ≤ exampleTile.size ∧ C7Statement exampleLibs exampleTile :=
  ⟨by decide, C7_tile_grid exampleLibs exampleTile (by decide)⟩

/-- C8: the tile endpoint always colorizes with the literal `'rainbow'`
colormap and normalizes with the fixed range `0..5` (so each value maps to
`v / 5`), independently of every request parameter; the bbox endpoint's
cmap defaults to `'rainbow'` when absent, and its normalization autoscales
to the data's own min and max. -/
theorem C8_fixed_tile_colormap_and_range :
    (∀ v : ℚ, tileScale v = v / 5)
    ∧ tileMinValue = 0 ∧ tileMaxValue = 5
    ∧ (∀ (libs : GeoLibs) (r : TileRequest) (ds : Dataset),
        get_image_tile libs r ds
          = .ok { content := libs.pngEncode (pilFromArray (colorizeRaster libs "rainbow"
                    (rasterMap (fun v => v / 5) (get_image_tile_resampled libs r ds)))),
                  mediaType := "image/png" })
    ∧ (∀ q : ImageQuery, q.cmap = none → usedCmap q = "rainbow")
    ∧ (∀ (libs : GeoLibs) (q : ImageQuery) (ds : Dataset) (raster : Raster),
        get_image_resampled libs q ds = .ok raster →
        get_image_scaled libs q ds
          = .ok { raster with values := (raster.values.map
              (fun v => (v - listMin raster.values)
                / (listMax raster.values - listMin raster.values))) }) := by
  have hts : ∀ v : ℚ, tileScale v = v / 5 := by
    intro v
    rw [tileScale, tileMinValue, tileMaxValue]
    norm_num
  refine ⟨hts, rfl, rfl, ?_, ?_, ?_⟩
  · intro libs r ds
    have : rasterMap tileScale (get_image_tile_resampled libs r ds)
        = rasterMap (fun v => v / 5) (get_image_tile_resampled libs r ds) := by
      rw [show tileScale = fun v : ℚ => v / 5 from funext hts]
    rw [get_image_tile, get_image_tile_scaled, this]
  · intro q hq
    rw [usedCmap, hq]
  · intro libs q ds raster hres
    rw [get_image_scaled, hres]
    rfl

/-- C8 witness: the defaulted cmap and the autoscaled normalization at a
concrete request. -/
theorem C8_fixed_tile_colormap_and_range_witness :
    usedCmap exampleQuery = "rainbow"
    ∧ get_image_scaled exampleLibs exampleQuery exampleDataset
        = .ok { exampleResampled with values := (exampleResampled.values.map
            (fun v => (v - listMin exampleResampled.values)
              / (listMax exampleResampled.values - listMin exampleResampled.values))) } :=
  ⟨C8_fixed_tile_colormap_and_range.2.2.2.2.1 exampleQuery rfl,
   C8_fixed_tile_colormap_and_range.2.2.2.2.2 exampleLibs exampleQuery exampleDataset
     exampleResampled rfl⟩

/-- Exhaustive behaviour of the bbox parse (line 52): either the string
splits into exactly four `float()`-parseable pieces and the parse binds
them in order, or the parse raises `ValueError`. -/
theorem parseBbox_cases (s : String) :
    (pyFourFloats s = true ∧ ∃ a b c d, parseBbox s = .ok (a, b, c, d)
        ∧ (pySplitComma s).mapM pyFloatOfString? = some [a, b, c, d])
    ∨ (pyFourFloats s = false ∧ parseBbox s = .error .valueError) := by
  cases hm : (pySplitComma s).mapM pyFloatOfString? with
  | none =>
    right
    constructor
    · rw [pyFourFloats, hm]
    · rw [parseBbox, hm]
  | some l =>
    rcases l with _ | ⟨a, _ | ⟨b, _ | ⟨c, _ | ⟨d, _ | ⟨e, l⟩⟩⟩⟩⟩
    · exact Or.inr ⟨by rw [pyFourFloats, hm]; rfl, by rw [parseBbox, hm]⟩
    · exact Or.inr ⟨by rw [pyFourFloats, hm]; rfl, by rw [parseBbox, hm]⟩
    · exact Or.inr ⟨by rw [pyFourFloats, hm]; rfl, by rw [parseBbox, hm]⟩
    · exact Or.inr ⟨by rw [pyFourFloats, hm]; rfl, by rw [parseBbox, hm]⟩
    · exact Or.inl ⟨by rw [pyFourFloats, hm]; rfl,
        a, b, c, d, by rw [parseBbox, hm], rfl⟩
    · exact Or.inr ⟨by rw [pyFourFloats, hm]; rfl, by rw [parseBbox, hm]⟩

/-- On a parse failure `get_image` propagates the `ValueError`. -/
theorem get_image_of_parse_error (libs : GeoLibs) (q : ImageQuery) (ds : Dataset)
    (hp : parseBbox q.bbox = .error .valueError) :
    get_image libs q ds = .error .valueError := by
  rw [get_image, get_image_image, get_image_scaled, get_image_resampled, hp]
  rfl

/-- On a parse success `get_image` returns a response. -/
theorem get_image_of_parse_ok (libs : GeoLibs) (q : ImageQuery) (ds : Dataset)
    (a b c d : PyFloat) (hp : parseBbox q.bbox = .ok (a, b, c, d)) :
    get_image libs q ds
      = .ok { content := libs.pngEncode (pilFromArray (colorizeRaster libs (usedCmap q)
                (autoscaleRaster (get_image_core_resampled libs q ds a b c d)))),
              mediaType := "image/png" } := by
  rw [get_image, get_image_image, get_image_scaled, get_image_resampled, hp]
  rfl

/-- C9 (amended): the bbox handler errors before touching the dataset
exactly when the bbox string is not four comma-separated strings each
accepted by CPython `float()`; on success the four parsed values bind in
split order. -/
theorem C9_bbox_parse_error_iff (libs : GeoLibs) (q : ImageQuery) (ds : Dataset) :
    ((∃ e, get_image libs q ds = .error e) ↔ pyFourFloats q.bbox = false)
    ∧ (parseBbox q.bbox = .error .valueError →
        (get_image_trace libs q ds).1 = [.parse])
    ∧ (∀ a b c d, parseBbox q.bbox = .ok (a, b, c, d)
        ↔ (pySplitComma q.bbox).mapM pyFloatOfString? = some [a, b, c, d]) := by
  refine ⟨⟨?_, ?_⟩, ?_, ?_⟩
  · rintro ⟨e, he⟩
    rcases parseBbox_cases q.bbox with ⟨hff, a, b, c, d, hok, _⟩ | ⟨hff, _⟩
    · rw [get_image_of_parse_ok libs q ds a b c d hok] at he
      cases he
    · exact hff
  · intro hff
    rcases parseBbox_cases q.bbox with ⟨htrue, _⟩ | ⟨_, herr⟩
    · rw [htrue] at hff
      cases hff
    · exact ⟨.valueError, get_image_of_parse_error libs q ds herr⟩
  · intro hp
    rw [get_image_trace, hp]
  · intro a b c d
    constructor
    · intro hp
      rcases parseBbox_cases q.bbox with ⟨_, a', b', c', d', hok, hm⟩ | ⟨_, herr⟩
      · rw [hp] at hok
        injection hok with hok
        rw [Prod.mk.injEq, Prod.mk.injEq, Prod.mk.injEq] at hok
        obtain ⟨ha, hb, hc, hd⟩ := hok
        rw [← ha, ← hb, ← hc, ← hd] at hm
        exact hm
      · rw [hp] at herr
        cases herr
    · intro hm
      rw [parseBbox, hm]

/-- C9 witness: a three-piece bbox errors at the parse with no dataset
step, and a valid bbox binds its four floats in order. -/
theorem C9_bbox_parse_error_iff_witness :
    (∃ e, get_image exampleLibs { exampleQuery with bbox := "0,0,1" } exampleDataset = .error e)
    ∧ (get_image_trace exampleLibs { exampleQuery with bbox := "0,0,1" } exampleDataset).1
        = [.parse]
    ∧ ∃ a b c d, parseBbox "0,0,1,1" = .ok (a, b, c, d) :=
  ⟨(C9_bbox_parse_error_iff exampleLibs { exampleQuery with bbox := "0,0,1" } exampleDataset).1.mpr
      (by rfl),
   (C9_bbox_parse_error_iff exampleLibs { exampleQuery with bbox := "0,0,1" } exampleDataset).2.1
      (by rfl),
   ⟨_, _, _, _,
    ((C9_bbox_parse_error_iff exampleLibs { exampleQuery with bbox := "0,0,1,1" } exampleDataset).2.2
      _ _ _ _).mpr rfl⟩⟩

/-- C9 counterexample: the claim's "if and only if ... four comma-separated
decimal numbers" is false on the code: `float('nan')` succeeds, so the
bbox `"0,0,1,nan"` raises no error although `nan` is not a decimal
number. -/
theorem C9_counterexample :
    (∃ resp, get_image exampleLibs { exampleQuery with bbox := "0,0,1,nan" } exampleDataset
        = .ok resp)
    ∧ specDecimalNumber "nan" = false
    ∧ specFourDecimalNumbers "0,0,1,nan" = false
    ∧ pyFloatOfString? "nan" = some .nan :=
  ⟨⟨⟨[2, 2], "image/png"⟩, by rfl⟩, by rfl, by rfl, by rfl⟩

/-- C2 (amended): `get_image` runs parse → transform bbox → slice →
resample → normalize → colorize → encode → respond, stopping at the parse
on failure; `get_image_tile` selects its time slice before deriving the
tile's bounding box, running parse → slice → derive bbox → resample →
normalize → colorize → encode → respond. -/
theorem C2_pipeline_order :
    (∀ (libs : GeoLibs) (q : ImageQuery) (ds : Dataset),
        (get_image_trace libs q ds).2 = get_image libs q ds
        ∧ (∀ resp : Response, (get_image_trace libs q ds).2 = .ok resp →
            (get_image_trace libs q ds).1 = claimedStepOrder))
    ∧ (∀ (libs : GeoLibs) (r : TileRequest) (ds : Dataset),
        (get_image_tile_trace libs r ds).2 = get_image_tile libs r ds
        ∧ (get_image_tile_trace libs r ds).1
            = [.parse, .sliceDataset, .transformBbox, .resample,
               .normalize, .colorize, .encode, .respond]) := by
  constructor
  · intro libs q ds
    cases hp : parseBbox q.bbox with
    | error e =>
      have herr : e = Err.valueError := by
        rcases parseBbox_cases q.bbox with ⟨_, a, b, c, d, hok, _⟩ | ⟨_, herr⟩
        · rw [hok] at hp; cases hp
        · rw [herr] at hp; injection hp with hp; exact hp.symm
      constructor
      · rw [get_image_trace, hp, herr,
          get_image_of_parse_error libs q ds (by rw [hp, herr])]
      · intro resp hresp
        rw [get_image_trace, hp] at hresp
        cases hresp
    | ok v =>
      obtain ⟨a, b, c, d⟩ := v
      constructor
      · rw [get_image_trace, hp, get_image_of_parse_ok libs q ds a b c d hp]
      · intro resp _
        rw [get_image_trace, hp]
        rfl
  · intro libs r ds
    exact ⟨rfl, rfl⟩

/-- C2 witness: the bbox pipeline at a concrete successful request. -/
theorem C2_pipeline_order_witness :
    (get_image_trace exampleLibs exampleQuery exampleDataset).1 = claimedStepOrder :=
  (C2_pipeline_order.1 exampleLibs exampleQuery exampleDataset).2 ⟨[2, 2], "image/png"⟩ rfl

/-- C2 counterexample: on a concrete tile request the tile handler's step
order has the dataset slice before the bounding-box derivation, so it is
not the claimed order. -/
theorem C2_counterexample :
    (get_image_tile_trace exampleLibs exampleTile exampleDataset).1
      = [.parse, .sliceDataset, .transformBbox, .resample,
         .normalize, .colorize, .encode, .respond]
    ∧ (get_image_tile_trace exampleLibs exampleTile exampleDataset).1 ≠ claimedStepOrder :=
  ⟨rfl, by decide⟩

/-- The concrete bbox query of claim C3's failing input: `width = 100`,
`height = 50`. -/
def exampleQueryWide : ImageQuery :=
  ⟨"0,0,1,1", 100, 50, "sst", "2022-05-05", "EPSG:4326", none⟩

/-- C3: rioxarray's `reproject` takes `shape=(dst_height, dst_width)` but
line 71 passes `shape=(query.width, query.height)`, so at
`width = 100, height = 50` the resampled raster has 100 rows and 50
columns and the resulting image is 50 pixels wide and 100 pixels tall —
the swap of what the claim (and the `ImageQuery` field titles) state. -/
theorem C3_image_shape_swapped :
    get_image_resampled exampleLibs exampleQueryWide exampleDataset
      = .ok ⟨100, 50, [0, 2], some "EPSG:4326", none⟩
    ∧ ∃ im, get_image_image exampleLibs exampleQueryWide exampleDataset = .ok im
        ∧ im.width = 50 ∧ im.height = 100
        ∧ im.width = exampleQueryWide.height ∧ im.height = exampleQueryWide.width
        ∧ im.width ≠ exampleQueryWide.width :=
  ⟨by rfl, _, rfl, rfl, rfl, rfl, rfl, by decide⟩

end RestfulGrids
